import Mathlib

/-!
Verification of the API-key usage-metering core (UsageLedger) of the
vertical-ai-accounting backend, together with two helpers from `src/db.py`
and the provisioning script `src/app/add_cliente.py`.

The runtime ledger operations (`authorize`, `recordUsage`, `describe`,
`listAll`) are described in the specification but their Python source is not
part of the provided files; those operations are modelled from the specification text, its
operation-by-operation description (each such definition is marked
`Modelled from the spec:`).  `get_db_session` and
`initialize_database_with_sample_data` are embedded directly from
`src/db.py`, and the provisioning insert from `src/app/add_cliente.py`.

Counters are modelled as `Int` (Python integers; `remaining` may be negative
when a race pushes `usage_count` past `usage_limit`).
-/

namespace VerticalAI

/-- Modelled from the spec: one `ClientAccount` row of the persisted `clients`
table — `api_key` (unique primary lookup key), `name`, `usage_count`,
`usage_limit` (spec §3 and the §6 table layout). -/
structure ClientAccount where
  api_key : String
  name : String
  usage_count : Int
  usage_limit : Int
deriving Repr, DecidableEq

/-- The shared account store: the rows of the `clients` table in storage
order. -/
abbrev Store := List ClientAccount

/-- Modelled from the spec: lookup of a `ClientAccount` by exact key match
(spec §4.1, "Lookup ClientAccount by exact key match"); returns the first row
whose `api_key` equals the presented key, or `none`. -/
def findAccount (key : String) : Store → Option ClientAccount
  | [] => none
  | a :: rest => if a.api_key = key then some a else findAccount key rest

/-- Modelled from the spec: `authorize(key) -> bool` (spec §4.1) — `false`
when no account exists for the key, otherwise `true` iff
`usage_count < usage_limit`. -/
def authorize (key : String) (s : Store) : Bool :=
  match findAccount key s with
  | none => false
  | some a => decide (a.usage_count < a.usage_limit)

/-- Modelled from the spec: `recordUsage(key) -> void` (spec §4.1) —
unconditionally increments `usage_count` of the account matching `key` by 1;
a no-op when no account matches. -/
def recordUsage (key : String) : Store → Store
  | [] => []
  | a :: rest =>
      (if a.api_key = key then { a with usage_count := a.usage_count + 1 }
       else a) :: recordUsage key rest

/-- Modelled from the spec: the `ClientInfo` record returned by `describe`
and `listAll`, with the field names of the specification text, its §8 concrete scenario. -/
structure ClientInfo where
  cliente : String
  usos_realizados : Int
  limite : Int
  restante : Int
deriving Repr, DecidableEq

/-- Modelled from the spec: the `ClientInfo` view of one account, with
`restante = usage_limit - usage_count` (spec §4.1, `describe`). -/
def infoOf (a : ClientAccount) : ClientInfo :=
  { cliente := a.name
    usos_realizados := a.usage_count
    limite := a.usage_limit
    restante := a.usage_limit - a.usage_count }

/-- Modelled from the spec: `describe(key) -> ClientInfo | absent`
(spec §4.1) — the info record for an existing key, absent for an unknown
key. -/
def describe (key : String) (s : Store) : Option ClientInfo :=
  (findAccount key s).map infoOf

/-- Modelled from the spec: `listAll() -> sequence of ClientInfo`
(spec §4.1) — the info of every provisioned account in storage order. -/
def listAll (s : Store) : List ClientInfo := s.map infoOf

/-- The four ledger operations, reified so that the effect of each call on
the shared store is statable. -/
inductive LedgerOp where
  | authorizeOp (key : String)
  | recordUsageOp (key : String)
  | describeOp (key : String)
  | listAllOp

/-- Result of one ledger call. -/
inductive LedgerResult where
  | boolR (b : Bool)
  | infoR (i : Option ClientInfo)
  | listR (l : List ClientInfo)
  | unitR
deriving Repr, DecidableEq

/-- Modelled from the spec: one ledger call against the shared store —
`authorize`, `describe` and `listAll` are reads (spec §4.1 marks them free of
side effects), `recordUsage` writes the incremented store. -/
def runOp : LedgerOp → Store → LedgerResult × Store
  | .authorizeOp k, s => (.boolR (authorize k s), s)
  | .recordUsageOp k, s => (.unitR, recordUsage k s)
  | .describeOp k, s => (.infoR (describe k s), s)
  | .listAllOp, s => (.listR (listAll s), s)

/- ### Basic lemmas about the store -/

/-- `recordUsage` rewrites lookup results pointwise: the first row matching
`key` is the old first match with its counter incremented. -/
theorem findAccount_recordUsage (key : String) (s : Store) :
    findAccount key (recordUsage key s)
      = (findAccount key s).map
          (fun a => { a with usage_count := a.usage_count + 1 }) := by
  induction s with
  | nil => rfl
  | cons a rest ih =>
      by_cases h : a.api_key = key
      · simp [recordUsage, findAccount, h]
      · simp [recordUsage, findAccount, h, ih]

/-- `recordUsage` leaves rows with a different key untouched, so lookups for
other keys are unchanged. -/
theorem findAccount_recordUsage_ne (k key : String) (h : k ≠ key) (s : Store) :
    findAccount k (recordUsage key s) = findAccount k s := by
  induction s with
  | nil => rfl
  | cons a rest ih =>
      by_cases hk : a.api_key = key
      · simp [recordUsage, findAccount, hk, Ne.symm h, ih]
      · simp [recordUsage, findAccount, hk, ih]

/- ### C1: authorize semantics -/

/-- C1: for every key `k`, `authorize` returns `false` when no
`ClientAccount` exists for `k`, and when an account exists it returns `true`
iff the `usage_count` of that account is strictly below its `usage_limit` — an
unknown key and an exhausted quota both collapse to the same `false`. -/
theorem authorize_spec (k : String) (s : Store) :
    (findAccount k s = none → authorize k s = false) ∧
    (∀ a : ClientAccount, findAccount k s = some a →
      (authorize k s = true ↔ a.usage_count < a.usage_limit)) := by
  constructor
  · intro h
    simp [authorize, h]
  · intro a h
    simp [authorize, h]

/-- Witness for C1 at concrete inputs: an unknown key yields `false`, a key
at quota yields `false`, a key under quota yields `true`. -/
theorem authorize_spec_witness :
    (findAccount "zz" ([] : Store) = none →
      authorize "zz" ([] : Store) = false) ∧
    (authorize "k" [⟨"k", "A", 3, 10⟩] = true ↔ (3 : Int) < 10) := by
  refine ⟨(authorize_spec "zz" ([] : Store)).1, ?_⟩
  have h := (authorize_spec "k" [⟨"k", "A", 3, 10⟩]).2 ⟨"k", "A", 3, 10⟩
    (by simp [findAccount])
  simpa using h

/-- Iterating `recordUsage` on a one-account store with matching key adds the
iteration count to `usage_count` and changes nothing else. -/
theorem iterate_recordUsage_single (k name : String) (c L : Int) (i : Nat) :
    (recordUsage k)^[i] [⟨k, name, c, L⟩] = [⟨k, name, c + i, L⟩] := by
  induction i generalizing c with
  | zero => simp
  | succ i ih =>
      rw [Function.iterate_succ_apply]
      have h1 : recordUsage k [(⟨k, name, c, L⟩ : ClientAccount)]
          = [⟨k, name, c + 1, L⟩] := by
        simp [recordUsage]
      rw [h1, ih (c + 1)]
      have : c + 1 + (i : Int) = c + ((i : Nat) + 1 : Nat) := by push_cast; ring
      rw [this]

/-- `findAccount` after `n` iterated `recordUsage` calls: the looked-up row
has its counter raised by exactly `n`. -/
theorem findAccount_iterate_recordUsage (k : String) (n : Nat) (s : Store)
    (a : ClientAccount) (h : findAccount k s = some a) :
    findAccount k ((recordUsage k)^[n] s)
      = some { a with usage_count := a.usage_count + n } := by
  induction n generalizing s a with
  | zero => simpa using h
  | succ n ih =>
      rw [Function.iterate_succ_apply]
      have h1 : findAccount k (recordUsage k s)
          = some { a with usage_count := a.usage_count + 1 } := by
        rw [findAccount_recordUsage k s, h]; rfl
      rw [ih (recordUsage k s) { a with usage_count := a.usage_count + 1 } h1]
      have : a.usage_count + 1 + (n : Int) = a.usage_count + ((n : Nat) + 1 : Nat) := by
        push_cast; ring
      simp [this]

/- ### C2: sequential authorize+recordUsage cycles exhaust the quota -/

/-- C2: a freshly provisioned account with `usage_count = 0` and
`usage_limit = L` authorizes each of the first `L` sequential
authorize-then-recordUsage cycles and refuses the `(L+1)`-th `authorize`;
and in the concrete §8 scenario (count `999`, limit `1000`), `authorize`
returns `true`, one `recordUsage` later `describe` reports
`usos_realizados = 1000`, `restante = 0`, and the next `authorize` returns
`false`. -/
theorem sequential_cycles_spec (k name : String) (L : Nat) :
    (∀ i : Nat, i < L →
      authorize k ((recordUsage k)^[i] [⟨k, name, 0, (L : Int)⟩]) = true) ∧
    authorize k ((recordUsage k)^[L] [⟨k, name, 0, (L : Int)⟩]) = false ∧
    (authorize "abc" [⟨"abc", "Acme", 999, 1000⟩] = true ∧
      describe "abc" (recordUsage "abc" [⟨"abc", "Acme", 999, 1000⟩])
        = some ⟨"Acme", 1000, 1000, 0⟩ ∧
      authorize "abc" (recordUsage "abc" [⟨"abc", "Acme", 999, 1000⟩])
        = false) := by
  refine ⟨?_, ?_, ?_⟩
  · intro i hi
    rw [iterate_recordUsage_single]
    simp [authorize, findAccount]
    omega
  · rw [iterate_recordUsage_single]
    simp [authorize, findAccount]
  · refine ⟨by decide, ?_, by decide⟩
    decide

/-- Witness for C2: with limit `2`, the second cycle (index `1 < 2`) is still
authorized. -/
theorem sequential_cycles_spec_witness :
    authorize "k" ((recordUsage "k")^[1] [⟨"k", "N", 0, (2 : Int)⟩]) = true :=
  (sequential_cycles_spec "k" "N" 2).1 1 (by decide)

/- ### C3: recordUsage increments by exactly one, with no re-validation -/

/-- C3: for a key with an existing account, each `recordUsage` call raises
`usage_count` by exactly `1` and `n` sequential calls raise it by exactly
`n`; no hypothesis relates `usage_count` to `usage_limit` — the increment is
unconditional, so the operation re-validates nothing and is not
idempotent. -/
theorem recordUsage_increment_spec (k : String) (s : Store)
    (a : ClientAccount) (h : findAccount k s = some a) :
    (findAccount k (recordUsage k s)
        = some { a with usage_count := a.usage_count + 1 }) ∧
    (∀ n : Nat, findAccount k ((recordUsage k)^[n] s)
        = some { a with usage_count := a.usage_count + n }) := by
  refine ⟨?_, fun n => findAccount_iterate_recordUsage k n s a h⟩
  rw [findAccount_recordUsage k s, h]; rfl

/-- Witness for C3: two calls on a store holding `("k", count 5, limit 5)` —
already at quota — still raise the counter to `7`. -/
theorem recordUsage_increment_spec_witness :
    findAccount "k" ((recordUsage "k")^[2] [⟨"k", "A", 5, 5⟩])
      = some ⟨"k", "A", 7, 5⟩ := by
  have h := (recordUsage_increment_spec "k" [⟨"k", "A", 5, 5⟩] ⟨"k", "A", 5, 5⟩
    (by simp [findAccount])).2 2
  simpa using h

/- ### C4: recordUsage on an unknown key is a no-op -/

/-- C4: when no account matches the key, `recordUsage` leaves the entire
store unchanged; being a total function of the store, it raises no error
either. -/
theorem recordUsage_unknown_noop (k : String) (s : Store)
    (h : findAccount k s = none) : recordUsage k s = s := by
  induction s with
  | nil => rfl
  | cons a rest ih =>
      rw [findAccount] at h
      by_cases ha : a.api_key = k
      · simp [ha] at h
      · rw [if_neg ha] at h
        simp [recordUsage, ha, ih h]

/-- Witness for C4: recording usage for the absent key `"zz"` leaves a
one-account store untouched. -/
theorem recordUsage_unknown_noop_witness :
    recordUsage "zz" [(⟨"k", "A", 3, 10⟩ : ClientAccount)]
      = [⟨"k", "A", 3, 10⟩] :=
  recordUsage_unknown_noop "zz" [⟨"k", "A", 3, 10⟩] (by simp [findAccount])

/- ### C5: describe returns the info view and never mutates -/

/-- C5: `describe` returns `{name, usage_count, usage_limit, remaining}` with
`remaining = usage_limit - usage_count` for an existing key, an absent result
for an unknown key, and the store after the call is the store before it. -/
theorem describe_spec (k : String) (s : Store) :
    (∀ a : ClientAccount, findAccount k s = some a →
      describe k s = some ⟨a.name, a.usage_count, a.usage_limit,
        a.usage_limit - a.usage_count⟩) ∧
    (findAccount k s = none → describe k s = none) ∧
    (runOp (.describeOp k) s).2 = s := by
  refine ⟨?_, ?_, rfl⟩
  · intro a h
    simp [describe, h, infoOf]
  · intro h
    simp [describe, h]

/-- Witness for C5: `describe` on a concrete one-account store yields the
info record with `restante = 10 - 3`, and an unknown key is absent. -/
theorem describe_spec_witness :
    describe "k" [(⟨"k", "A", 3, 10⟩ : ClientAccount)]
      = some ⟨"A", 3, 10, 7⟩ := by
  have h := (describe_spec "k" [(⟨"k", "A", 3, 10⟩ : ClientAccount)]).1
    ⟨"k", "A", 3, 10⟩ (by simp [findAccount])
  simpa using h

/- ### C6: authorize has no side effect on the store -/

/-- C6: an `authorize` call returns the store unchanged for every key and
every store — in particular the `usage_count` column is identical before and
after the call. -/
theorem authorize_no_side_effect (k : String) (s : Store) :
    (runOp (.authorizeOp k) s).2 = s ∧
    ((runOp (.authorizeOp k) s).2).map ClientAccount.usage_count
      = s.map ClientAccount.usage_count :=
  ⟨rfl, rfl⟩

/- ### C7: administrative provisioning (src/app/add_cliente.py) -/

/-- Embeds `src/app/add_cliente.py`: the script runs
`INSERT INTO clients (api_key, name, usage_limit) VALUES (?, ?, ?)` with a
freshly generated `uuid4` key (passed here as the parameter `nova_chave`,
since key generation is nondeterministic), the display name and the limit;
`usage_count` is not in the column list, so the row starts at the storage
default `0` (the `clients` schema itself is not under `src/`; the default
comes from the spec §6 table). -/
def add_cliente (nova_chave nome : String) (limite : Int) (s : Store) :
    Store :=
  s ++ [⟨nova_chave, nome, 0, limite⟩]

/-- A key found in the left part of an appended store is found in the whole
store with the same row. -/
theorem findAccount_append_left (k : String) (s t : Store)
    (a : ClientAccount) (h : findAccount k s = some a) :
    findAccount k (s ++ t) = some a := by
  induction s with
  | nil => simp [findAccount] at h
  | cons b rest ih =>
      rw [findAccount] at h
      by_cases hb : b.api_key = k
      · rw [if_pos hb] at h
        simp [findAccount, hb, h]
      · rw [if_neg hb] at h
        simp [findAccount, hb, ih h]

/-- A key absent from the left part of an appended store is looked up in the
right part. -/
theorem findAccount_append_right (k : String) (s t : Store)
    (h : findAccount k s = none) : findAccount k (s ++ t) = findAccount k t := by
  induction s with
  | nil => rfl
  | cons b rest ih =>
      rw [findAccount] at h
      by_cases hb : b.api_key = k
      · rw [if_pos hb] at h; exact absurd h (by simp)
      · rw [if_neg hb] at h
        simp [findAccount, hb, ih h]

/-- C7: provisioning with a fresh key inserts exactly one new row — the
store grows by one, the existing rows are untouched, the new row carries the
generated key, the given name, the given limit and `usage_count = 0`, and
lookups for every other key are unchanged. -/
theorem add_cliente_spec (nova_chave nome : String) (limite : Int) (s : Store)
    (hfresh : findAccount nova_chave s = none) :
    (add_cliente nova_chave nome limite s).length = s.length + 1 ∧
    (add_cliente nova_chave nome limite s).take s.length = s ∧
    findAccount nova_chave (add_cliente nova_chave nome limite s)
      = some ⟨nova_chave, nome, 0, limite⟩ ∧
    (∀ k, k ≠ nova_chave →
      findAccount k (add_cliente nova_chave nome limite s)
        = findAccount k s) := by
  refine ⟨by simp [add_cliente], ?_, ?_, ?_⟩
  · simp [add_cliente]
  · rw [add_cliente, findAccount_append_right nova_chave s _ hfresh]
    simp [findAccount]
  · intro k hk
    cases hfa : findAccount k s with
    | some a => exact findAccount_append_left k s _ a hfa
    | none =>
        have h4 : findAccount k (add_cliente nova_chave nome limite s)
            = findAccount k [(⟨nova_chave, nome, 0, limite⟩ : ClientAccount)] :=
          findAccount_append_right k s _ hfa
        rw [h4]
        simp [findAccount, Ne.symm hk]

/-- Witness for C7: provisioning key `"u1"` into a store holding one other
account appends exactly the expected row. -/
theorem add_cliente_spec_witness :
    findAccount "u1"
        (add_cliente "u1" "Daniel Ferreira" 1000 [⟨"k0", "A", 3, 10⟩])
      = some ⟨"u1", "Daniel Ferreira", 0, 1000⟩ :=
  (add_cliente_spec "u1" "Daniel Ferreira" 1000 [⟨"k0", "A", 3, 10⟩]
    (by simp [findAccount])).2.2.1

/- ### C8: the check-then-act race can push the counter past the limit -/

/-- Joint state of two request threads (A and B) running the
authorize-then-recordUsage protocol against the shared store: `pc` 0 means
the authorize call is pending, 1 means recordUsage is pending, 2 means done;
`auth` remembers the Boolean each thread received from its authorize
call. -/
structure RaceState where
  pcA : Nat
  pcB : Nat
  authA : Option Bool
  authB : Option Bool
  store : Store
deriving Repr, DecidableEq

/-- One step of one thread of the protocol: the authorize step reads the
current shared store and records the Boolean; the recordUsage step writes
the incremented store. -/
def threadStep (key : String) (pc : Nat) (auth : Option Bool) (s : Store) :
    Nat × Option Bool × Store :=
  match pc with
  | 0 => (1, some (authorize key s), s)
  | 1 => (2, auth, recordUsage key s)
  | _ => (pc, auth, s)

/-- One scheduled step of the two-thread race: `turnA` picks which thread
runs its next protocol step against the shared store. -/
def raceStep (key : String) (turnA : Bool) (st : RaceState) : RaceState :=
  if turnA then
    let r := threadStep key st.pcA st.authA st.store
    { st with pcA := r.1, authA := r.2.1, store := r.2.2 }
  else
    let r := threadStep key st.pcB st.authB st.store
    { st with pcB := r.1, authB := r.2.1, store := r.2.2 }

/-- Run the two-thread race under a schedule (list of turns). -/
def runRace (key : String) (sched : List Bool) (st : RaceState) : RaceState :=
  sched.foldl (fun st t => raceStep key t st) st

/-- C8: starting from `usage_count = usage_limit - 1`, some interleaving of
two concurrent authorize+recordUsage sequences on the same key lets both
threads pass authorization and both record usage, leaving
`usage_count = usage_limit + 1` — the limit is advisory under contention,
not a hard cap. -/
theorem race_exceeds_limit (k name : String) (L : Int) :
    ∃ sched : List Bool,
      (runRace k sched ⟨0, 0, none, none, [⟨k, name, L - 1, L⟩]⟩).pcA = 2 ∧
      (runRace k sched ⟨0, 0, none, none, [⟨k, name, L - 1, L⟩]⟩).pcB = 2 ∧
      (runRace k sched ⟨0, 0, none, none, [⟨k, name, L - 1, L⟩]⟩).authA
        = some true ∧
      (runRace k sched ⟨0, 0, none, none, [⟨k, name, L - 1, L⟩]⟩).authB
        = some true ∧
      findAccount k
          (runRace k sched ⟨0, 0, none, none, [⟨k, name, L - 1, L⟩]⟩).store
        = some ⟨k, name, L + 1, L⟩ := by
  refine ⟨[true, false, true, false], ?_⟩
  have h1 : L - 1 < L := by omega
  have h2 : L - 1 + 1 + 1 = L + 1 := by ring
  simp [runRace, raceStep, threadStep, authorize, recordUsage, findAccount,
    h1, h2]

/- ### C9: get_db_session hands out an already-closed session (src/db.py) -/

/-- A SQLAlchemy session handle, reduced to what the claim observes: whether
`close()` has been invoked on it.  `SessionLocal()` yields an open one. -/
structure DBSession where
  closed : Bool
deriving Repr, DecidableEq

/-- Embeds `Session.close()`. -/
def sessionClose (db : DBSession) : DBSession := { db with closed := true }

/-- Python `try: return <body db> finally: <fin db>` acting on one mutable
session object: the return value (a reference to the object) is fixed by the
try block, then the finally block mutates that same object before control
leaves the function, so the caller observes the mutation. -/
def tryFinallyReturn (body fin : DBSession → DBSession) (db : DBSession) :
    DBSession :=
  fin (body db)

/-- Embeds `get_db_session` of `src/db.py` (lines 173-185): create a fresh
session with `SessionLocal()`, then `try: return db finally: db.close()`. -/
def get_db_session : DBSession :=
  tryFinallyReturn id sessionClose { closed := false }

/-- C9: the session returned by `get_db_session` has already had `close()`
invoked on it — the `finally` block closes the freshly created (initially
open) session before the function returns it, so every caller, including
every endpoint depending on `db.get_db_session`, receives a closed
session. -/
theorem get_db_session_returns_closed :
    ({ closed := false } : DBSession).closed = false ∧
    get_db_session.closed = true :=
  ⟨rfl, rfl⟩

/- ### C10: sample-data initialization is idempotent (src/db.py) -/

/-- A calendar date as produced by `datetime.date`. -/
structure PyDate where
  year : Nat
  month : Nat
  day : Nat
deriving Repr, DecidableEq

/-- One row of the `empresas` table (the columns the initializer sets). -/
structure EmpresaRow where
  id : Nat
  nome : String
  cnpj : String
  regime_tributario : String
  setor : String
deriving Repr, DecidableEq

/-- One row of the `usuarios` table (the columns the initializer sets). -/
structure UsuarioRow where
  nome : String
  email : String
  senha_hash : String
  cargo : String
  empresa_id : Nat
deriving Repr, DecidableEq

/-- One row of the `obrigacoes` table (the columns the initializer sets;
`valor_multa` is kept as an integer since the source literals `500.0` and
`1000.0` are integral). -/
structure ObrigacaoRow where
  nome : String
  descricao : String
  periodicidade : String
  data_vencimento : PyDate
  status : String
  prioridade : Nat
  responsavel : String
  empresa_id : Nat
  categoria : String
  valor_multa : Int
  data_conclusao : Option PyDate
deriving Repr, DecidableEq

/-- The three tables that `initialize_database_with_sample_data` writes. -/
structure DBState where
  empresas : List EmpresaRow
  usuarios : List UsuarioRow
  obrigacoes : List ObrigacaoRow
deriving Repr, DecidableEq

/-- Embeds `initialize_database_with_sample_data` of `src/db.py`
(lines 188-267): if the `empresas` table already holds a row
(`db.query(Empresa).count() > 0`) return at once; otherwise insert the
sample empresa (autoincrement id `1`, the table being empty in this branch),
the sample usuario (`pwd_context.hash("senha123")` is salted and
nondeterministic, so the produced hash is the parameter `hash`), and the two
sample obrigacoes, whose GFIP status and conclusion date depend on the
current date `hoje` (`date.today()`). -/
def initialize_database_with_sample_data (hoje : PyDate) (hash : String)
    (s : DBState) : DBState :=
  if s.empresas.length > 0 then s
  else
    let empresa : EmpresaRow :=
      { id := 1
        nome := "Contabilidade Exemplo Ltda"
        cnpj := "12.345.678/0001-90"
        regime_tributario := "lucro_presumido"
        setor := "servicos" }
    let usuario : UsuarioRow :=
      { nome := "Administrador"
        email := "admin@exemplo.com"
        senha_hash := hash
        cargo := "Contador"
        empresa_id := empresa.id }
    let ob1 : ObrigacaoRow :=
      { nome := "DARF IRPJ"
        descricao := "Pagamento do IRPJ mensal por estimativa"
        periodicidade := "mensal"
        data_vencimento := ⟨hoje.year, hoje.month, 20⟩
        status := "pendente"
        prioridade := 1
        responsavel := "Administrador"
        empresa_id := empresa.id
        categoria := "federal"
        valor_multa := 500
        data_conclusao := none }
    let ob2 : ObrigacaoRow :=
      { nome := "GFIP"
        descricao := "Entrega da GFIP mensal"
        periodicidade := "mensal"
        data_vencimento := ⟨hoje.year, hoje.month, 7⟩
        status := if hoje.day > 7 then "concluida" else "pendente"
        prioridade := 1
        responsavel := "Administrador"
        empresa_id := empresa.id
        categoria := "federal"
        valor_multa := 1000
        data_conclusao :=
          if hoje.day > 7 then some ⟨hoje.year, hoje.month, 5⟩ else none }
    { empresas := s.empresas ++ [empresa]
      usuarios := s.usuarios ++ [usuario]
      obrigacoes := s.obrigacoes ++ [ob1, ob2] }

/-- After the initializer runs, the `empresas` table is never empty: either
it already had a row, or the sample empresa was just inserted. -/
theorem initialize_empresas_pos (hoje : PyDate) (hash : String)
    (s : DBState) :
    0 < (initialize_database_with_sample_data hoje hash s).empresas.length := by
  rw [initialize_database_with_sample_data]
  by_cases h : s.empresas.length > 0
  · simp [h]
  · simp [h]

/-- C10: the initializer is idempotent — a store already holding at least one
`Empresa` row is returned with no row added, modified or deleted, and running
the initializer twice (in particular twice from the empty store) leaves
exactly the state of running it once. -/
theorem initialize_idempotent (hoje : PyDate) (hash : String) (s : DBState) :
    (s.empresas ≠ [] → initialize_database_with_sample_data hoje hash s = s) ∧
    initialize_database_with_sample_data hoje hash
        (initialize_database_with_sample_data hoje hash s)
      = initialize_database_with_sample_data hoje hash s := by
  have hguard : ∀ t : DBState, 0 < t.empresas.length →
      initialize_database_with_sample_data hoje hash t = t := by
    intro t ht
    simp [initialize_database_with_sample_data, ht]
  exact ⟨fun h => hguard s (List.length_pos.mpr h),
    hguard _ (initialize_empresas_pos hoje hash s)⟩

/-- Witness for C10: a store with one empresa row is returned unchanged. -/
theorem initialize_idempotent_witness :
    initialize_database_with_sample_data ⟨2026, 10, 12⟩ "h"
        ⟨[⟨1, "E", "c", "r", "s"⟩], [], []⟩
      = ⟨[⟨1, "E", "c", "r", "s"⟩], [], []⟩ :=
  (initialize_idempotent ⟨2026, 10, 12⟩ "h"
    ⟨[⟨1, "E", "c", "r", "s"⟩], [], []⟩).1 (by simp)

end VerticalAI
